import Mathlib

/-!
Verification of the real-time session coordination layer of the
live-audio-sanctuary backend: the `SanctuarySessionStateManager`
(participant roster, session metrics, emergency alerts, analytics,
cleanup), the socket gateway handlers (`mute_participant`,
`kick_participant`, `join_sanctuary_host`), and the host-authorization
check, shallowly embedded as pure Lean functions over an explicit store.

Timestamps (`Date.now()` / `new Date().toISOString()`) are modelled as a
`Nat` parameter `now` supplied to each operation; TTL arguments are kept
where the source passes them but time never advances inside a modelled
call sequence, so no key expires.
-/

namespace Veilo

/-- One roster entry, as built by the `join_sanctuary` handler
(`participantData`) and stamped by `addParticipant`. String-valued
`status` and `role` mirror the untyped source values
(`connected`, `host` | `moderator` | `participant`). -/
structure Participant where
  id : String
  aliasName : String
  socketId : String
  isAnonymous : Bool
  isMuted : Bool
  handRaised : Bool
  avatarIndex : Nat
  role : String
  status : String
  joinedAt : Nat
  lastSeen : Nat
  deriving Repr, DecidableEq

/-- The metrics bag stored under `state.metrics`. Fields are `Option`s
because a JavaScript object may lack any of them; the object spread
`{...state.metrics, ...metrics, lastMetricUpdate: now}` is modelled by
field-wise override of present (`some`) fields. -/
structure Metrics where
  participantCount : Option Nat
  activeParticipants : Option Nat
  lastMetricUpdate : Option Nat
  deriving Repr, DecidableEq

/-- Session state object stored under the session key. `topic` stands
for the arbitrary non-metric payload fields a caller may store; all
fields are `Option`s since the source object is untyped and any field
may be absent. -/
structure SessionState where
  topic : Option String
  metrics : Option Metrics
  lastUpdated : Option Nat
  version : Option Nat
  deriving Repr, DecidableEq

/-- An emergency alert as supplied by a caller of `setEmergencyAlert`
(before the id/timestamp/status stamping). -/
structure AlertInput where
  atype : String
  message : String
  reportedBy : String
  severity : String
  deriving Repr, DecidableEq

/-- A stored emergency alert, after `setEmergencyAlert` assigns
`id`, `timestamp` and `status`. -/
structure Alert where
  id : String
  atype : String
  message : String
  reportedBy : String
  severity : String
  timestamp : Nat
  status : String
  deriving Repr, DecidableEq

/-- Input to `trackEvent` (the source accepts an arbitrary object;
callers pass a type tag and the acting participant). -/
structure EventInput where
  etype : String
  participantId : String
  deriving Repr, DecidableEq

/-- A stored analytics event. The source id is
"event_" ++ timestamp ++ random suffix; no claim observes event ids, so
the random suffix is modelled by the timestamp alone. -/
structure AnalyticsEvent where
  etype : String
  participantId : String
  timestamp : Nat
  id : String
  deriving Repr, DecidableEq

/-- Voice modulation configuration stored per (session, participant).
Only its key lifecycle is observed by the claims. -/
structure VoiceConfig where
  voiceId : String
  updatedAt : Nat
  deriving Repr, DecidableEq

/-- Cache keys. The source builds string keys from distinct prefixes
("sanctuary_session:", "sanctuary_participants:", "sanctuary_chat:",
"sanctuary_voice:", "sanctuary_emergency:", "sanctuary_analytics:");
each constructor embeds one prefix family, so distinct families are
distinct keys exactly as the distinct prefixes guarantee in the source.
A voice key carries both ids because the source key is
"sanctuary_voice:" ++ sessionId ++ ":" ++ participantId. -/
inductive CacheKey where
  | session (sid : String)
  | participants (sid : String)
  | chat (sid : String)
  | voice (sid : String) (pid : String)
  | emergency (sid : String)
  | analytics (sid : String)
  deriving Repr, DecidableEq

/-- Values storable in the cache; one variant per entity family. -/
inductive CacheValue where
  | sess (s : SessionState)
  | plist (ps : List Participant)
  | alerts (l : List Alert)
  | events (es : List AnalyticsEvent)
  | voice (v : VoiceConfig)
  deriving Repr, DecidableEq

/-- The ephemeral keyed store, as a total map from keys to optional
values. -/
abbrev Store := CacheKey → Option CacheValue

/-- The store with no keys. -/
def emptyStore : Store := fun _ => none

/-- Modelled from the spec: `cacheService.set(key, value, ttl)`. The
source `services/cacheService` is not in the repository; the spec (§4.1)
gives `set(key, value, ttl)` with advisory TTL expiry. No claim observes
expiry and time does not advance inside a modelled call sequence, so the
`ttl` argument is accepted and ignored. -/
def cacheSet (st : Store) (k : CacheKey) (v : CacheValue) (_ttl : Nat) : Store :=
  fun k2 => if k2 = k then some v else st k2

/-- Modelled from the spec: `cacheService.get(key) -> value | absent`. -/
def cacheGet (st : Store) (k : CacheKey) : Option CacheValue := st k

/-- Modelled from the spec: `cacheService.delete(key)`. -/
def cacheDelete (st : Store) (k : CacheKey) : Store :=
  fun k2 => if k2 = k then none else st k2

/-- Modelled from the spec: bulk deletion of every key matched by a
predicate, the effect of `cacheService.keys(pattern)` followed by
`delete` on each returned key. -/
def deleteMatching (st : Store) (pred : CacheKey → Bool) : Store :=
  fun k2 => if pred k2 then none else st k2

/-- Whether a stored voice key matches the cleanup pattern
"sanctuary_voice:" ++ sessionId ++ ":.*". A stored voice key reads
"sanctuary_voice:" ++ sid ++ ":" ++ pid, so it matches exactly when
`sessionId ++ ":"` is a string prefix of `sid ++ ":" ++ pid`. -/
def voicePatternMatch (sessionId : String) (k : CacheKey) : Bool :=
  match k with
  | .voice sid pid => (sessionId ++ ":").isPrefixOf (sid ++ ":" ++ pid)
  | _ => false

/-- Field-wise JavaScript-spread override: a present (`some`) patch
field replaces the old field. -/
def ovr {α : Type} (patch old : Option α) : Option α :=
  match patch with
  | some v => some v
  | none => old

/-- `{...state.metrics, ...metrics, lastMetricUpdate: now}` from
`updateSessionMetrics`. -/
def mergeMetrics (old : Option Metrics) (patch : Metrics) (now : Nat) : Metrics :=
  let o := old.getD ⟨none, none, none⟩
  { participantCount := ovr patch.participantCount o.participantCount
    activeParticipants := ovr patch.activeParticipants o.activeParticipants
    lastMetricUpdate := some now }

/-- `setSessionState(sessionId, state, ttl = 3600)`: stores
`{...state, lastUpdated: now, version: (state.version || 0) + 1}`
under the session key. Note the version written is derived from the
*argument* `state`, not from what was previously stored. -/
def setSessionState (st : Store) (sessionId : String) (state : SessionState)
    (now : Nat) : Store :=
  cacheSet st (.session sessionId)
    (.sess { state with
      lastUpdated := some now
      version := some ((state.version.getD 0) + 1) }) 3600

/-- `getSessionState(sessionId)`. A stored value of a different variant
(impossible through these operations) reads as absent. -/
def getSessionState (st : Store) (sessionId : String) : Option SessionState :=
  match st (.session sessionId) with
  | some (.sess s) => some s
  | _ => none

/-- `updateSessionMetrics(sessionId, metrics)`: read-modify-write of the
session state; returns the store unchanged when no session state exists
(the source returns `false` without writing). -/
def updateSessionMetrics (st : Store) (sessionId : String) (metrics : Metrics)
    (now : Nat) : Store :=
  match getSessionState st sessionId with
  | none => st
  | some s =>
    setSessionState st sessionId
      { s with metrics := some (mergeMetrics s.metrics metrics now) } now

/-- `getParticipants(sessionId)`: `cacheService.get(key) || []`. -/
def getParticipants (st : Store) (sessionId : String) : List Participant :=
  match st (.participants sessionId) with
  | some (.plist ps) => ps
  | _ => []

/-- `addParticipant(sessionId, participant)`: drop any existing entry
with the same id, append the input stamped with
`joinedAt`/`lastSeen` = now and `status` = "connected", store the roster,
then recompute the session metrics. Returns (new store, new roster). -/
def addParticipant (st : Store) (sessionId : String) (participant : Participant)
    (now : Nat) : Store × List Participant :=
  let participants := getParticipants st sessionId
  let filteredParticipants := participants.filter (fun p => p.id ≠ participant.id)
  let updatedParticipants := filteredParticipants ++
    [{ participant with joinedAt := now, lastSeen := now, status := "connected" }]
  let st1 := cacheSet st (.participants sessionId) (.plist updatedParticipants) 7200
  let st2 := updateSessionMetrics st1 sessionId
    { participantCount := some updatedParticipants.length
      activeParticipants :=
        some (updatedParticipants.filter (fun p => p.status = "connected")).length
      lastMetricUpdate := none } now
  (st2, updatedParticipants)

/-- `removeParticipant(sessionId, participantId)`: filter the roster by
id, store it, recompute metrics. Returns (new store, new roster). -/
def removeParticipant (st : Store) (sessionId : String) (participantId : String)
    (now : Nat) : Store × List Participant :=
  let participants := getParticipants st sessionId
  let updatedParticipants := participants.filter (fun p => p.id ≠ participantId)
  let st1 := cacheSet st (.participants sessionId) (.plist updatedParticipants) 7200
  let st2 := updateSessionMetrics st1 sessionId
    { participantCount := some updatedParticipants.length
      activeParticipants :=
        some (updatedParticipants.filter (fun p => p.status = "connected")).length
      lastMetricUpdate := none } now
  (st2, updatedParticipants)

/-- The metadata patch passed to `updateParticipantStatus` by its
callers (hand-raise state; `isMuted` for the spec's self mute toggle).
A present field overrides the roster entry's field, mirroring
`{...p, status, ...metadata, lastSeen: now}`. -/
structure MetaPatch where
  isMuted : Option Bool
  handRaised : Option Bool
  handRaisedAt : Option Nat
  deriving Repr, DecidableEq

/-- Apply a metadata patch to a roster entry (the `...metadata` spread). -/
def applyMeta (m : MetaPatch) (p : Participant) : Participant :=
  { p with
    isMuted := (ovr m.isMuted (some p.isMuted)).getD p.isMuted
    handRaised := (ovr m.handRaised (some p.handRaised)).getD p.handRaised }

/-- `updateParticipantStatus(sessionId, participantId, status, metadata)`:
map over the roster; a matching entry gets the new status, the metadata
patch, and a fresh `lastSeen`. -/
def updateParticipantStatus (st : Store) (sessionId participantId status : String)
    (metadata : MetaPatch) (now : Nat) : Store × List Participant :=
  let participants := getParticipants st sessionId
  let updatedParticipants := participants.map (fun p =>
    if p.id = participantId then
      { applyMeta metadata { p with status := status } with lastSeen := now }
    else p)
  (cacheSet st (.participants sessionId) (.plist updatedParticipants) 7200,
   updatedParticipants)

/-- `getEmergencyAlerts(sessionId)`. -/
def getEmergencyAlerts (st : Store) (sessionId : String) : List Alert :=
  match st (.emergency sessionId) with
  | some (.alerts l) => l
  | _ => []

/-- The stamping `{id: "alert_" ++ now, ...alert, timestamp: now,
status: "active"}` applied by `setEmergencyAlert`. -/
def stampAlert (alert : AlertInput) (now : Nat) : Alert :=
  { id := "alert_" ++ toString now
    atype := alert.atype
    message := alert.message
    reportedBy := alert.reportedBy
    severity := alert.severity
    timestamp := now
    status := "active" }

/-- `setEmergencyAlert(sessionId, alert)`: append the stamped alert,
then `splice(0, length - 50)` when more than 50 are held (keep the most
recent 50). Returns (new store, created alert). -/
def setEmergencyAlert (st : Store) (sessionId : String) (alert : AlertInput)
    (now : Nat) : Store × Alert :=
  let l := getEmergencyAlerts st sessionId
  let newAlert := stampAlert alert now
  let pushed := l ++ [newAlert]
  let trimmed := if pushed.length > 50 then pushed.drop (pushed.length - 50) else pushed
  (cacheSet st (.emergency sessionId) (.alerts trimmed) 86400, newAlert)

/-- `resolveEmergencyAlert(sessionId, alertId)`: flip the matching
alert's status to "resolved". -/
def resolveEmergencyAlert (st : Store) (sessionId alertId : String) :
    Store × List Alert :=
  let l := getEmergencyAlerts st sessionId
  let updated := l.map (fun a =>
    if a.id = alertId then { a with status := "resolved" } else a)
  (cacheSet st (.emergency sessionId) (.alerts updated) 86400, updated)

/-- `getSessionAnalytics(sessionId)`. -/
def getSessionAnalytics (st : Store) (sessionId : String) : List AnalyticsEvent :=
  match st (.analytics sessionId) with
  | some (.events es) => es
  | _ => []

/-- `trackEvent(sessionId, event)`: append the stamped event; keep only
the most recent 1000. -/
def trackEvent (st : Store) (sessionId : String) (event : EventInput)
    (now : Nat) : Store × List AnalyticsEvent :=
  let es := getSessionAnalytics st sessionId
  let pushed := es ++ [{ etype := event.etype, participantId := event.participantId
                         timestamp := now, id := "event_" ++ toString now }]
  let trimmed :=
    if pushed.length > 1000 then pushed.drop (pushed.length - 1000) else pushed
  (cacheSet st (.analytics sessionId) (.events trimmed) 86400, trimmed)

/-- `setVoiceModulation(sessionId, participantId, voiceConfig)`. -/
def setVoiceModulation (st : Store) (sessionId participantId : String)
    (voiceConfig : VoiceConfig) (now : Nat) : Store :=
  cacheSet st (.voice sessionId participantId)
    (.voice { voiceConfig with updatedAt := now }) 3600

/-- `removeVoiceModulation(sessionId, participantId)`. -/
def removeVoiceModulation (st : Store) (sessionId participantId : String) : Store :=
  cacheDelete st (.voice sessionId participantId)

/-- The `summary` object of `getSessionOverview`. -/
structure Summary where
  totalParticipants : Nat
  activeParticipants : Nat
  activeAlerts : Nat
  sessionVersion : Nat
  lastActivity : Nat
  deriving Repr, DecidableEq

/-- Result of `getSessionOverview`. -/
structure Overview where
  state : Option SessionState
  participants : List Participant
  alerts : List Alert
  analytics : List AnalyticsEvent
  summary : Summary
  deriving Repr, DecidableEq

/-- `getSessionOverview(sessionId)`: gather state, roster, active
alerts, the last 10 analytics events, and the summary. The source's
`state?.version || 0` and `state?.lastUpdated || new Date()` defaults
appear as `getD 0` and `getD now`. -/
def getSessionOverview (st : Store) (sessionId : String) (now : Nat) : Overview :=
  let state := getSessionState st sessionId
  let participants := getParticipants st sessionId
  let l := getEmergencyAlerts st sessionId
  let analytics := getSessionAnalytics st sessionId
  { state := state
    participants := participants
    alerts := l.filter (fun a => a.status = "active")
    analytics := analytics.drop (analytics.length - 10)
    summary :=
      { totalParticipants := participants.length
        activeParticipants :=
          (participants.filter (fun p => p.status = "connected")).length
        activeAlerts := (l.filter (fun a => a.status = "active")).length
        sessionVersion := (state.bind (fun s => s.version)).getD 0
        lastActivity := (state.bind (fun s => s.lastUpdated)).getD now } }

/-- `cleanupSession(sessionId)`: delete the session, roster, emergency
and analytics keys, then every voice key matching the session's voice
prefix pattern. -/
def cleanupSession (st : Store) (sessionId : String) : Store :=
  let st1 := cacheDelete st (.session sessionId)
  let st2 := cacheDelete st1 (.participants sessionId)
  let st3 := cacheDelete st2 (.emergency sessionId)
  let st4 := cacheDelete st3 (.analytics sessionId)
  deleteMatching st4 (voicePatternMatch sessionId)

/-! ### Connection gateway (socket handlers) -/

/-- One live socket connection: socket id, resolved user identity, the
database role resolved at handshake (`socket.userRole`), anonymity flag,
and current room memberships. -/
structure Socket where
  sid : String
  userId : String
  userRole : String
  isAnonymous : Bool
  rooms : List String
  deriving Repr, DecidableEq

/-- The per-process gateway state: the live sockets plus the shared
keyed store. -/
structure GatewayState where
  sockets : List Socket
  store : Store

/-- Events emitted to sockets or rooms by the handlers. A directed
event names the target socket id; a room event names the room and is
delivered to its members at dispatch time. -/
inductive SocketEvent where
  | forceMuted (targetSid : String) (sessionId : String) (mutedBy : String) (ts : Nat)
  | participantMuted (room : String) (participantId : String) (mutedBy : String) (ts : Nat)
  | kickedFromRoom (targetSid : String) (sessionId : String) (kickedBy : String) (ts : Nat)
  | participantKicked (room : String) (participantId : String) (kickedBy : String) (ts : Nat)
  deriving Repr, DecidableEq

/-- The sockets that receive a broadcast addressed to `room`. -/
def roomRecipients (gs : GatewayState) (room : String) : List Socket :=
  gs.sockets.filter (fun s => s.rooms.contains room)

/-- `socket.on('mute_participant')`: find the first socket whose userId
equals the target participant id; if found, emit the directed
`force_muted` notice and the room `participant_muted` notice. The
handler reads no role, performs no authorization check, and touches
neither the store nor any room membership. -/
def muteParticipant (gs : GatewayState) (issuer : Socket)
    (sessionId participantId : String) (now : Nat) :
    GatewayState × List SocketEvent :=
  match gs.sockets.find? (fun s => s.userId == participantId) with
  | some target =>
    (gs, [.forceMuted target.sid sessionId issuer.userId now,
          .participantMuted ("audio_room_" ++ sessionId) participantId issuer.userId now])
  | none => (gs, [])

/-- `socket.on('kick_participant')`: find the first socket whose userId
equals the target participant id; if found, emit the directed
`kicked_from_room` notice, remove the audio room from the target's room
memberships (`targetSocket.leave`), and emit the room
`participant_kicked` notice. The handler performs no authorization
check and never touches the store (in particular, not the roster). -/
def kickParticipant (gs : GatewayState) (issuer : Socket)
    (sessionId participantId : String) (now : Nat) :
    GatewayState × List SocketEvent :=
  match gs.sockets.find? (fun s => s.userId == participantId) with
  | some target =>
    let room := "audio_room_" ++ sessionId
    let sockets2 := gs.sockets.map (fun s =>
      if s.sid = target.sid then { s with rooms := s.rooms.filter (fun r => r ≠ room) }
      else s)
    ({ gs with sockets := sockets2 },
     [.kickedFromRoom target.sid sessionId issuer.userId now,
      .participantKicked room participantId issuer.userId now])
  | none => (gs, [])

/-! ### Host authorization (`join_sanctuary_host`) -/

/-- A `SanctuarySession` document as queried by the handler: its id,
stored host bearer token, and recorded owner identity. -/
structure SanctuarySessionRec where
  id : String
  hostToken : String
  hostId : String
  deriving Repr, DecidableEq

/-- A `HostSession` grant record: session it covers, bearer token,
activity flag and expiry. -/
structure HostSessionRec where
  sanctuaryId : String
  hostToken : String
  isActive : Bool
  expiresAt : Nat
  deriving Repr, DecidableEq

/-- The documents visible to the authorization queries. -/
structure AuthDb where
  sanctuarySessions : List SanctuarySessionRec
  hostSessions : List HostSessionRec
  deriving Repr, DecidableEq

/-- The issuing connection's identity as the handler sees it. -/
structure Conn where
  userId : String
  isAnonymous : Bool
  deriving Repr, DecidableEq

/-- The authorization portion of `socket.on('join_sanctuary_host')`:
returns whether the handler reaches the authorized branch
(`session && isAuthorized`). A presented token is `some t`; the falsy
absent/empty token is `none`. `findOne` is modelled by `List.find?`
(first match). Control flow mirrors the source: direct
session-hostToken match first, then the active unexpired `HostSession`
grant (after which the session is re-fetched by id alone), then — only
when still unauthorized and the connection is not anonymous — the
ownership query, which reassigns the session variable even on failure. -/
def joinSanctuaryHostAuth (db : AuthDb) (now : Nat) (sanctuaryId : String)
    (hostToken : Option String) (conn : Conn) : Bool :=
  let step1 : Option SanctuarySessionRec × Bool :=
    match hostToken with
    | none => (none, false)
    | some t =>
      match db.sanctuarySessions.find?
          (fun s => s.id == sanctuaryId && s.hostToken == t) with
      | some s => (some s, true)
      | none =>
        match db.hostSessions.find? (fun h =>
            h.sanctuaryId == sanctuaryId && h.hostToken == t &&
            h.isActive && decide (now < h.expiresAt)) with
        | some _ => (db.sanctuarySessions.find? (fun s => s.id == sanctuaryId), true)
        | none => (none, false)
  let step2 : Option SanctuarySessionRec × Bool :=
    if !step1.2 && !conn.isAnonymous then
      match db.sanctuarySessions.find?
          (fun s => s.id == sanctuaryId && s.hostId == conn.userId) with
      | some s => (some s, true)
      | none => (none, false)
    else step1
  step2.1.isSome && step2.2

/-- Whether the presented token equals the hostToken stored on the
session record itself (the handler's first query; no activity or expiry
condition). -/
def directTokenMatch (db : AuthDb) (sanctuaryId : String)
    (hostToken : Option String) : Bool :=
  match hostToken with
  | none => false
  | some t =>
    (db.sanctuarySessions.find?
      (fun s => s.id == sanctuaryId && s.hostToken == t)).isSome

/-- Whether an active, unexpired `HostSession` grant matches the
presented token for this session. -/
def tokenGrantValid (db : AuthDb) (now : Nat) (sanctuaryId : String)
    (hostToken : Option String) : Bool :=
  match hostToken with
  | none => false
  | some t =>
    (db.hostSessions.find? (fun h =>
      h.sanctuaryId == sanctuaryId && h.hostToken == t &&
      h.isActive && decide (now < h.expiresAt))).isSome

/-- Whether any session record with this id exists. -/
def sessionExists (db : AuthDb) (sanctuaryId : String) : Bool :=
  (db.sanctuarySessions.find? (fun s => s.id == sanctuaryId)).isSome

/-- Whether a session record with this id lists the connection's
identity as its owner. -/
def ownerMatch (db : AuthDb) (sanctuaryId : String) (conn : Conn) : Bool :=
  (db.sanctuarySessions.find?
    (fun s => s.id == sanctuaryId && s.hostId == conn.userId)).isSome

/-- The host-authorization predicate exactly as the spec states it
(§4.5): `isHost(sessionId, connection) = tokenGrantValid(sessionId,
presentedToken) OR session.ownerId == connection.identity`, with a
grant valid only while an active, unexpired grant record exists.
Written from the spec's words for comparison with the code. -/
def isHostSpecFormula (db : AuthDb) (now : Nat) (sanctuaryId : String)
    (hostToken : Option String) (conn : Conn) : Bool :=
  tokenGrantValid db now sanctuaryId hostToken ||
    (match db.sanctuarySessions.find? (fun s => s.id == sanctuaryId) with
     | some s => s.hostId == conn.userId
     | none => false)

/-! ### Helper lemmas about key separation -/

lemma getParticipants_cacheSet_session (st : Store) (sid sid2 : String)
    (v : CacheValue) (ttl : Nat) :
    getParticipants (cacheSet st (.session sid) v ttl) sid2 = getParticipants st sid2 := by
  simp [getParticipants, cacheSet]

lemma getParticipants_updateSessionMetrics (st : Store) (sid sid2 : String)
    (m : Metrics) (now : Nat) :
    getParticipants (updateSessionMetrics st sid m now) sid2 = getParticipants st sid2 := by
  unfold updateSessionMetrics
  cases h : getSessionState st sid with
  | none => rfl
  | some s => simp [setSessionState, getParticipants_cacheSet_session]

lemma getParticipants_cacheSet_participants_self (st : Store) (sid : String)
    (ps : List Participant) (ttl : Nat) :
    getParticipants (cacheSet st (.participants sid) (.plist ps) ttl) sid = ps := by
  simp [getParticipants, cacheSet]

lemma getSessionState_cacheSet_participants (st : Store) (sid sid2 : String)
    (v : CacheValue) (ttl : Nat) :
    getSessionState (cacheSet st (.participants sid) v ttl) sid2 = getSessionState st sid2 := by
  simp [getSessionState, cacheSet]

lemma getSessionState_setSessionState_self (st : Store) (sid : String)
    (s : SessionState) (now : Nat) :
    getSessionState (setSessionState st sid s now) sid =
      some { s with lastUpdated := some now, version := some (s.version.getD 0 + 1) } := by
  simp [getSessionState, setSessionState, cacheSet]

lemma getEmergencyAlerts_cacheSet_emergency_self (st : Store) (sid : String)
    (l : List Alert) (ttl : Nat) :
    getEmergencyAlerts (cacheSet st (.emergency sid) (.alerts l) ttl) sid = l := by
  simp [getEmergencyAlerts, cacheSet]

/-! ### C10 -/

/-- C10: the roster entry stored by `addParticipant` has connection
status "connected" and `joinedAt`/`lastSeen` stamped at insertion time,
overriding whatever the input supplied; the returned roster is the
stored roster, the entry with the input's id is present, and it is the
only entry with that id. -/
theorem addParticipant_stamps_fresh_connected (st : Store) (sessionId : String)
    (p : Participant) (now : Nat) :
    getParticipants (addParticipant st sessionId p now).1 sessionId =
      (addParticipant st sessionId p now).2 ∧
    (∃ q ∈ (addParticipant st sessionId p now).2, q.id = p.id) ∧
    (∀ q ∈ (addParticipant st sessionId p now).2, q.id = p.id →
      q.status = "connected" ∧ q.joinedAt = now ∧ q.lastSeen = now) := by
  refine ⟨?_, ?_, ?_⟩
  · show getParticipants
      (updateSessionMetrics (cacheSet st (.participants sessionId) _ 7200) sessionId _ now)
      sessionId = _
    rw [getParticipants_updateSessionMetrics,
      getParticipants_cacheSet_participants_self]
    rfl
  · exact ⟨_, List.mem_append_right _ (List.mem_singleton.mpr rfl), rfl⟩
  · intro q hq hid
    rcases List.mem_append.mp hq with hmem | hmem
    · rw [List.mem_filter] at hmem
      exact absurd hid (by simpa using hmem.2)
    · rw [List.mem_singleton] at hmem
      subst hmem
      exact ⟨rfl, rfl, rfl⟩

/-- Witness for `addParticipant_stamps_fresh_connected` at a concrete
input. -/
theorem addParticipant_stamps_fresh_connected_witness :
    getParticipants
        (addParticipant emptyStore "s1"
          ⟨"p1", "Ann", "sockA", false, false, true, 3, "participant", "disconnected", 111, 222⟩ 9).1
        "s1" =
      (addParticipant emptyStore "s1"
        ⟨"p1", "Ann", "sockA", false, false, true, 3, "participant", "disconnected", 111, 222⟩ 9).2 ∧
    (∃ q ∈ (addParticipant emptyStore "s1"
        ⟨"p1", "Ann", "sockA", false, false, true, 3, "participant", "disconnected", 111, 222⟩ 9).2,
      q.id = "p1") ∧
    (∀ q ∈ (addParticipant emptyStore "s1"
        ⟨"p1", "Ann", "sockA", false, false, true, 3, "participant", "disconnected", 111, 222⟩ 9).2,
      q.id = "p1" → q.status = "connected" ∧ q.joinedAt = 9 ∧ q.lastSeen = 9) :=
  addParticipant_stamps_fresh_connected emptyStore "s1"
    ⟨"p1", "Ann", "sockA", false, false, true, 3, "participant", "disconnected", 111, 222⟩ 9

/-! ### C4 -/

/-- C4 counterexample: a session is stored with topic "t" and version 5;
`setSessionState` with a patch object carrying neither field leaves the
stored state with version 1 — not the claimed 6 — and the previously
stored topic is gone, so the patch was not merged into the stored state
and the stored version is not monotonically increasing. -/
theorem setSessionState_not_merge_counterexample :
    getSessionState
        (cacheSet emptyStore (.session "s1") (.sess ⟨some "t", none, some 10, some 5⟩) 3600)
        "s1" = some ⟨some "t", none, some 10, some 5⟩ ∧
    getSessionState
        (setSessionState
          (cacheSet emptyStore (.session "s1") (.sess ⟨some "t", none, some 10, some 5⟩) 3600)
          "s1" ⟨none, none, none, none⟩ 99)
        "s1" = some ⟨none, none, some 99, some 1⟩ ∧
    some (1 : Nat) ≠ some 6 ∧ ¬ (5 : Nat) < 1 := by
  refine ⟨rfl, rfl, by decide, by decide⟩

/-- C4 amended: `setSessionState` overwrites the stored session state
with the supplied object (no merge with the previously stored state),
stamps `lastUpdated`, and sets `version` to one more than the supplied
object's version (or to 1 when it carries none). The stored version
increases by exactly one only along the code's read-modify-write path:
`updateSessionMetrics`, which re-reads the stored state, bumps the
stored version by exactly one. -/
theorem setSessionState_overwrites (st : Store) (sessionId : String)
    (state : SessionState) (m : Metrics) (now : Nat) :
    getSessionState (setSessionState st sessionId state now) sessionId =
      some { state with lastUpdated := some now,
                        version := some (state.version.getD 0 + 1) } ∧
    (∀ s, getSessionState st sessionId = some s →
      (getSessionState (updateSessionMetrics st sessionId m now) sessionId).bind
          (fun s2 => s2.version) = some (s.version.getD 0 + 1)) := by
  refine ⟨getSessionState_setSessionState_self st sessionId state now, ?_⟩
  intro s hs
  unfold updateSessionMetrics
  rw [hs]
  rw [getSessionState_setSessionState_self]
  rfl

/-- Witness for `setSessionState_overwrites` at a concrete input. -/
theorem setSessionState_overwrites_witness :
    getSessionState
        (setSessionState
          (cacheSet emptyStore (.session "w4") (.sess ⟨some "x", none, some 1, some 3⟩) 3600)
          "w4" ⟨some "y", none, none, some 7⟩ 42)
        "w4" = some ⟨some "y", none, some 42, some 8⟩ ∧
    (∀ s,
      getSessionState
          (cacheSet emptyStore (.session "w4") (.sess ⟨some "x", none, some 1, some 3⟩) 3600)
          "w4" = some s →
      (getSessionState
          (updateSessionMetrics
            (cacheSet emptyStore (.session "w4") (.sess ⟨some "x", none, some 1, some 3⟩) 3600)
            "w4" ⟨some 2, some 2, none⟩ 42)
          "w4").bind (fun s2 => s2.version) = some (s.version.getD 0 + 1)) :=
  setSessionState_overwrites
    (cacheSet emptyStore (.session "w4") (.sess ⟨some "x", none, some 1, some 3⟩) 3600)
    "w4" ⟨some "y", none, none, some 7⟩ ⟨some 2, some 2, none⟩ 42

/-! ### C8 -/

lemma cleanupSession_apply (st : Store) (sessionId : String) (k : CacheKey) :
    cleanupSession st sessionId k =
      if voicePatternMatch sessionId k then none
      else if k = .analytics sessionId then none
      else if k = .emergency sessionId then none
      else if k = .participants sessionId then none
      else if k = .session sessionId then none
      else st k := rfl

/-- C8: after `cleanupSession`, `getSessionOverview` for that session is
the empty overview (state absent, roster/alerts/analytics empty, summary
zeroed with `lastActivity` defaulting to the call time), and cleaning up
a second time leaves the store exactly as one cleanup does. -/
theorem cleanupSession_empties_and_idempotent (st : Store) (sessionId : String)
    (now : Nat) :
    getSessionOverview (cleanupSession st sessionId) sessionId now =
      ⟨none, [], [], [], ⟨0, 0, 0, 0, now⟩⟩ ∧
    cleanupSession (cleanupSession st sessionId) sessionId =
      cleanupSession st sessionId := by
  constructor
  · have hsess : cleanupSession st sessionId (.session sessionId) = none := by
      rw [cleanupSession_apply]; simp [voicePatternMatch]
    have hpart : cleanupSession st sessionId (.participants sessionId) = none := by
      rw [cleanupSession_apply]; simp [voicePatternMatch]
    have halert : cleanupSession st sessionId (.emergency sessionId) = none := by
      rw [cleanupSession_apply]; simp [voicePatternMatch]
    have hana : cleanupSession st sessionId (.analytics sessionId) = none := by
      rw [cleanupSession_apply]; simp [voicePatternMatch]
    simp [getSessionOverview, getSessionState, getParticipants, getEmergencyAlerts,
      getSessionAnalytics, hsess, hpart, halert, hana]
  · funext k
    rw [cleanupSession_apply, cleanupSession_apply]
    split_ifs <;> rfl

/-! ### C5 -/

/-- A concrete pre-existing roster entry used in the C5 counterexample. -/
def rosterEntryOld : Participant :=
  ⟨"a", "Old", "sockO", false, true, false, 1, "participant", "connected", 1, 1⟩

/-- C5 counterexample: when a participant with the same id is already in
the roster, `addParticipant` followed by `removeParticipant` for that id
does NOT return the roster to its pre-add value: the pre-existing entry
is replaced by the add and then deleted by the remove, leaving an empty
roster where the pre-add roster had one entry. -/
theorem addRemove_roundtrip_counterexample :
    getParticipants
        (cacheSet emptyStore (.participants "s1") (.plist [rosterEntryOld]) 7200)
        "s1" = [rosterEntryOld] ∧
    getParticipants
        (removeParticipant
          (addParticipant
            (cacheSet emptyStore (.participants "s1") (.plist [rosterEntryOld]) 7200)
            "s1"
            ⟨"a", "New", "sockN", false, false, false, 2, "participant", "connected", 5, 5⟩
            5).1
          "s1" "a" 6).1
        "s1" = [] ∧
    ([] : List Participant) ≠ [rosterEntryOld] := by
  refine ⟨rfl, rfl, by decide⟩

/-- C5 amended: `addParticipant` followed immediately by
`removeParticipant` for the same id returns the roster to its pre-add
value, provided no participant with that id was already in the roster
(the add would otherwise replace — and the remove then delete — the
pre-existing entry). -/
theorem addRemove_roundtrip (st : Store) (sessionId : String) (p : Participant)
    (now now2 : Nat)
    (h : ∀ q ∈ getParticipants st sessionId, q.id ≠ p.id) :
    getParticipants
        (removeParticipant (addParticipant st sessionId p now).1 sessionId p.id now2).1
        sessionId = getParticipants st sessionId := by
  have hadd : getParticipants (addParticipant st sessionId p now).1 sessionId =
      (getParticipants st sessionId).filter (fun q => q.id ≠ p.id) ++
        [{ p with joinedAt := now, lastSeen := now, status := "connected" }] := by
    show getParticipants
      (updateSessionMetrics (cacheSet st (.participants sessionId) _ 7200) sessionId _ now)
      sessionId = _
    rw [getParticipants_updateSessionMetrics, getParticipants_cacheSet_participants_self]
  have hfe : (getParticipants st sessionId).filter (fun q => q.id ≠ p.id) =
      getParticipants st sessionId :=
    List.filter_eq_self.mpr (fun q hq => by simpa using h q hq)
  show getParticipants
    (updateSessionMetrics
      (cacheSet (addParticipant st sessionId p now).1 (.participants sessionId) _ 7200)
      sessionId _ now2) sessionId = _
  rw [getParticipants_updateSessionMetrics, getParticipants_cacheSet_participants_self,
    hadd, List.filter_append, hfe]
  simp
  exact fun a ha => h a ha

/-- Witness for `addRemove_roundtrip` at a concrete input. -/
theorem addRemove_roundtrip_witness :
    getParticipants
        (removeParticipant
          (addParticipant
            (cacheSet emptyStore (.participants "w5") (.plist [rosterEntryOld]) 7200)
            "w5"
            ⟨"b", "New", "sockN", false, false, false, 2, "participant", "connected", 5, 5⟩
            5).1
          "w5" "b" 6).1
        "w5" =
      getParticipants
        (cacheSet emptyStore (.participants "w5") (.plist [rosterEntryOld]) 7200) "w5" :=
  addRemove_roundtrip
    (cacheSet emptyStore (.participants "w5") (.plist [rosterEntryOld]) 7200)
    "w5" ⟨"b", "New", "sockN", false, false, false, 2, "participant", "connected", 5, 5⟩
    5 6 (by decide)

/-! ### C6 -/

/-- One roster mutation: an `addParticipant` or a `removeParticipant`
call with its timestamp. -/
inductive RosterOp where
  | add (p : Participant) (now : Nat)
  | remove (pid : String) (now : Nat)
  deriving Repr

/-- Apply one roster mutation to the store. -/
def applyRosterOp (sessionId : String) (st : Store) : RosterOp → Store
  | .add p now => (addParticipant st sessionId p now).1
  | .remove pid now => (removeParticipant st sessionId pid now).1

/-- Run a sequence of roster mutations. -/
def runRosterOps (sessionId : String) (st : Store) (ops : List RosterOp) : Store :=
  ops.foldl (applyRosterOp sessionId) st

lemma updateSessionMetrics_some (st : Store) (sid : String) (m : Metrics)
    (now : Nat) (s : SessionState) (h : getSessionState st sid = some s) :
    getSessionState (updateSessionMetrics st sid m now) sid =
      some { topic := s.topic
             metrics := some (mergeMetrics s.metrics m now)
             lastUpdated := some now
             version := some (s.version.getD 0 + 1) } := by
  unfold updateSessionMetrics
  rw [h, getSessionState_setSessionState_self]

lemma store_then_metrics_count (st : Store) (sid : String) (ps : List Participant)
    (now : Nat) (s : SessionState) (h : getSessionState st sid = some s) :
    (getSessionState
        (updateSessionMetrics (cacheSet st (.participants sid) (.plist ps) 7200) sid
          ⟨some ps.length, some (ps.filter (fun p => p.status = "connected")).length, none⟩
          now) sid).isSome ∧
    (getSessionState
        (updateSessionMetrics (cacheSet st (.participants sid) (.plist ps) 7200) sid
          ⟨some ps.length, some (ps.filter (fun p => p.status = "connected")).length, none⟩
          now) sid).bind (fun s2 => s2.metrics.bind (fun m2 => m2.participantCount)) =
      some (getParticipants
        (updateSessionMetrics (cacheSet st (.participants sid) (.plist ps) 7200) sid
          ⟨some ps.length, some (ps.filter (fun p => p.status = "connected")).length, none⟩
          now) sid).length := by
  have h1 : getSessionState (cacheSet st (.participants sid) (.plist ps) 7200) sid =
      some s := by
    rw [getSessionState_cacheSet_participants]; exact h
  have h2 : getParticipants
      (updateSessionMetrics (cacheSet st (.participants sid) (.plist ps) 7200) sid
        ⟨some ps.length, some (ps.filter (fun p => p.status = "connected")).length, none⟩
        now) sid = ps := by
    rw [getParticipants_updateSessionMetrics, getParticipants_cacheSet_participants_self]
  rw [updateSessionMetrics_some _ _ _ _ _ h1, h2]
  exact ⟨rfl, rfl⟩

lemma rosterOp_count (sessionId : String) (st : Store) (op : RosterOp)
    (hs : (getSessionState st sessionId).isSome) :
    (getSessionState (applyRosterOp sessionId st op) sessionId).isSome ∧
    (getSessionState (applyRosterOp sessionId st op) sessionId).bind
        (fun s2 => s2.metrics.bind (fun m2 => m2.participantCount)) =
      some (getParticipants (applyRosterOp sessionId st op) sessionId).length := by
  obtain ⟨s, hseq⟩ := Option.isSome_iff_exists.mp hs
  cases op with
  | add p now => exact store_then_metrics_count st sessionId _ now s hseq
  | remove pid now => exact store_then_metrics_count st sessionId _ now s hseq

/-- C6 amended: for a session whose session-state record exists, after
any nonempty sequence of `addParticipant`/`removeParticipant` operations
— including repeated adds of the same id — the stored
`metrics.participantCount` equals the size of the stored roster. (When
no session-state record exists, `updateSessionMetrics` is a no-op and no
participantCount is ever stored; see the counterexample.) -/
theorem participantCount_matches_roster (sessionId : String) (st : Store)
    (ops : List RosterOp) (hs : (getSessionState st sessionId).isSome)
    (hne : ops ≠ []) :
    (getSessionState (runRosterOps sessionId st ops) sessionId).bind
        (fun s2 => s2.metrics.bind (fun m2 => m2.participantCount)) =
      some (getParticipants (runRosterOps sessionId st ops) sessionId).length := by
  induction ops generalizing st with
  | nil => exact absurd rfl hne
  | cons op rest ih =>
    have hstep := rosterOp_count sessionId st op hs
    cases rest with
    | nil => exact hstep.2
    | cons op2 rest2 =>
      exact ih (applyRosterOp sessionId st op) hstep.1 (by simp)

/-- C6 counterexample: for a session with NO session-state record,
`addParticipant` stores a one-entry roster but `updateSessionMetrics`
bails out, so no participantCount is stored at all — the stored metric
(absent) does not equal the roster size (1). -/
theorem participantCount_absent_counterexample :
    (getParticipants (addParticipant emptyStore "s1" rosterEntryOld 1).1 "s1").length
      = 1 ∧
    (getSessionState (addParticipant emptyStore "s1" rosterEntryOld 1).1 "s1").bind
        (fun s2 => s2.metrics.bind (fun m2 => m2.participantCount)) = none ∧
    (none : Option Nat) ≠ some 1 := by
  refine ⟨rfl, rfl, by decide⟩

/-- Witness for `participantCount_matches_roster`: a session with state,
a repeated add of the same id and a remove of an absent id. -/
theorem participantCount_matches_roster_witness :
    (getSessionState
        (runRosterOps "w6"
          (cacheSet emptyStore (.session "w6") (.sess ⟨none, none, none, some 0⟩) 3600)
          [.add rosterEntryOld 1, .add rosterEntryOld 2, .remove "zz" 3])
        "w6").bind (fun s2 => s2.metrics.bind (fun m2 => m2.participantCount)) =
      some (getParticipants
        (runRosterOps "w6"
          (cacheSet emptyStore (.session "w6") (.sess ⟨none, none, none, some 0⟩) 3600)
          [.add rosterEntryOld 1, .add rosterEntryOld 2, .remove "zz" 3])
        "w6").length :=
  participantCount_matches_roster "w6"
    (cacheSet emptyStore (.session "w6") (.sess ⟨none, none, none, some 0⟩) 3600)
    [.add rosterEntryOld 1, .add rosterEntryOld 2, .remove "zz" 3]
    (by rfl) (by simp)

/-! ### C7 -/

/-- Run a sequence of `setEmergencyAlert` calls, each with its input
alert and its timestamp. -/
def appendAlerts (st : Store) (sessionId : String) : List (AlertInput × Nat) → Store
  | [] => st
  | (a, t) :: rest => appendAlerts (setEmergencyAlert st sessionId a t).1 sessionId rest

lemma getEmergencyAlerts_setEmergencyAlert (st : Store) (sid : String)
    (a : AlertInput) (t : Nat) :
    getEmergencyAlerts (setEmergencyAlert st sid a t).1 sid =
      (if (getEmergencyAlerts st sid ++ [stampAlert a t]).length > 50
       then (getEmergencyAlerts st sid ++ [stampAlert a t]).drop
              ((getEmergencyAlerts st sid ++ [stampAlert a t]).length - 50)
       else getEmergencyAlerts st sid ++ [stampAlert a t]) := by
  show getEmergencyAlerts (cacheSet st (.emergency sid) (.alerts _) 86400) sid = _
  rw [getEmergencyAlerts_cacheSet_emergency_self]

lemma appendAlerts_drop (sessionId : String) (l : List (AlertInput × Nat)) :
    ∀ (st : Store) (A : List Alert),
    getEmergencyAlerts st sessionId = A → A.length ≤ 50 →
    getEmergencyAlerts (appendAlerts st sessionId l) sessionId =
      (A ++ l.map (fun an => stampAlert an.1 an.2)).drop (A.length + l.length - 50) := by
  induction l with
  | nil =>
    intro st A hA hle
    simpa [appendAlerts, hA] using
      congrArg (fun n => List.drop n A) (Nat.sub_eq_zero_of_le hle).symm
  | cons at1 rest ih =>
    intro st A hA hle
    obtain ⟨a, t⟩ := at1
    have hstep := getEmergencyAlerts_setEmergencyAlert st sessionId a t
    rw [hA] at hstep
    show getEmergencyAlerts
      (appendAlerts (setEmergencyAlert st sessionId a t).1 sessionId rest) sessionId = _
    by_cases h50 : A.length + 1 ≤ 50
    · have hcond : ¬ (A ++ [stampAlert a t]).length > 50 := by
        simp; omega
      rw [if_neg hcond] at hstep
      have ihres := ih (setEmergencyAlert st sessionId a t).1 (A ++ [stampAlert a t])
        hstep (by simp; omega)
      rw [ihres]
      have hidx : (A ++ [stampAlert a t]).length + rest.length - 50 =
          A.length + ((a, t) :: rest).length - 50 := by
        simp; omega
      rw [hidx, List.append_assoc]
      simp
    · have hA50 : A.length = 50 := by omega
      have hcond : (A ++ [stampAlert a t]).length > 50 := by
        simp; omega
      rw [if_pos hcond] at hstep
      have hlen2 : ((A ++ [stampAlert a t]).drop
          ((A ++ [stampAlert a t]).length - 50)).length = 50 := by
        simp; omega
      have ihres := ih (setEmergencyAlert st sessionId a t).1 _ hstep (by rw [hlen2])
      rw [ihres, hlen2]
      have hd1 : (A ++ [stampAlert a t]).length - 50 = 1 := by simp; omega
      rw [hd1]
      have hsplit : List.drop 1 (A ++ [stampAlert a t]) ++
          rest.map (fun an => stampAlert an.1 an.2) =
          List.drop 1 ((A ++ [stampAlert a t]) ++ rest.map (fun an => stampAlert an.1 an.2)) :=
        (@List.drop_append_of_le_length _ (A ++ [stampAlert a t])
          (rest.map (fun an => stampAlert an.1 an.2)) 1 (by simp)).symm
      rw [hsplit, List.drop_drop]
      have hidx2 : 1 + (50 + rest.length - 50) = A.length + ((a, t) :: rest).length - 50 := by
        simp only [List.length_cons, hA50]
        omega
      rw [hidx2, List.append_assoc]
      simp

/-- C7: starting from a session with no stored alerts, after appending
the alerts of `l` in order the stored alert log is exactly the
`min(n, 50)` most recently appended (stamped) alerts, oldest evicted
first. -/
theorem appendAlerts_keeps_last_fifty (st : Store) (sessionId : String)
    (l : List (AlertInput × Nat)) (h : getEmergencyAlerts st sessionId = []) :
    getEmergencyAlerts (appendAlerts st sessionId l) sessionId =
      (l.map (fun an => stampAlert an.1 an.2)).drop (l.length - 50) ∧
    (getEmergencyAlerts (appendAlerts st sessionId l) sessionId).length =
      min l.length 50 := by
  have hmain := appendAlerts_drop sessionId l st [] h (by simp)
  simp only [List.nil_append, List.length_nil, Nat.zero_add] at hmain
  refine ⟨hmain, ?_⟩
  rw [hmain]
  simp
  omega

/-- Witness for `appendAlerts_keeps_last_fifty`: 51 appends on a fresh
session retain exactly the 50 most recent alerts. -/
theorem appendAlerts_keeps_last_fifty_witness :
    getEmergencyAlerts
        (appendAlerts emptyStore "w7"
          ((List.range 51).map (fun i => (⟨"crisis", "help", "u1", "critical"⟩, i))))
        "w7" =
      (((List.range 51).map
          (fun i => ((⟨"crisis", "help", "u1", "critical"⟩ : AlertInput), i))).map
        (fun an => stampAlert an.1 an.2)).drop
        (((List.range 51).map
          (fun i => ((⟨"crisis", "help", "u1", "critical"⟩ : AlertInput), i))).length - 50) ∧
    (getEmergencyAlerts
        (appendAlerts emptyStore "w7"
          ((List.range 51).map (fun i => (⟨"crisis", "help", "u1", "critical"⟩, i))))
        "w7").length =
      min ((List.range 51).map
        (fun i => ((⟨"crisis", "help", "u1", "critical"⟩ : AlertInput), i))).length 50 :=
  appendAlerts_keeps_last_fifty emptyStore "w7"
    ((List.range 51).map (fun i => (⟨"crisis", "help", "u1", "critical"⟩, i))) rfl

/-! ### C9 -/

lemma cacheSet_cacheSet_same (st : Store) (k : CacheKey) (v w : CacheValue)
    (ttl1 ttl2 : Nat) :
    cacheSet (cacheSet st k v ttl1) k w ttl2 = cacheSet st k w ttl2 := by
  funext k2
  by_cases h : k2 = k <;> simp [cacheSet, h]

lemma getParticipants_updateParticipantStatus_self (st : Store)
    (sid pid s : String) (m : MetaPatch) (now : Nat) :
    getParticipants (updateParticipantStatus st sid pid s m now).1 sid =
      (getParticipants st sid).map (fun p =>
        if p.id = pid then { applyMeta m { p with status := s } with lastSeen := now }
        else p) := by
  show getParticipants (cacheSet st (.participants sid) (.plist _) 7200) sid = _
  rw [getParticipants_cacheSet_participants_self]

/-- The per-entry transformation applied by `updateParticipantStatus`
for the spec's self mute toggle (status "connected", metadata
`{isMuted}`). -/
def muteToggleFn (pid : String) (b : Bool) (t : Nat) : Participant → Participant :=
  fun p =>
    if p.id = pid then
      { applyMeta ⟨some b, none, none⟩ { p with status := "connected" } with lastSeen := t }
    else p

lemma muteToggleFn_id (pid : String) (b : Bool) (t : Nat) (p : Participant) :
    (muteToggleFn pid b t p).id = p.id := by
  unfold muteToggleFn
  by_cases h : p.id = pid <;> simp [h, applyMeta]

lemma muteToggleFn_comm (p1 p2 : String) (b1 b2 : Bool) (t1 t2 : Nat)
    (hne : p1 ≠ p2) (p : Participant) :
    muteToggleFn p2 b2 t2 (muteToggleFn p1 b1 t1 p) =
      muteToggleFn p1 b1 t1 (muteToggleFn p2 b2 t2 p) := by
  have h12 : ¬ p1 = p2 := hne
  have h21 : ¬ p2 = p1 := fun hc => hne hc.symm
  by_cases h1 : p.id = p1
  · have h2 : ¬ p.id = p2 := fun hc => hne (h1 ▸ hc)
    simp [muteToggleFn, h1, h2, applyMeta, h12, h21]
  · by_cases h2 : p.id = p2
    · simp [muteToggleFn, h1, h2, applyMeta, h12, h21]
    · simp [muteToggleFn, h1, h2]

/-- C9: two self mute-toggle updates through `updateParticipantStatus`
targeting distinct participant ids commute — applying them in either
order yields the same store — and in the final roster every entry with
either targeted id carries its toggle's muted value, while the roster's
ids are unchanged. -/
theorem updateParticipantStatus_toggles_commute (st : Store)
    (sessionId p1 p2 : String) (b1 b2 : Bool) (t1 t2 : Nat) (hne : p1 ≠ p2) :
    (updateParticipantStatus
        (updateParticipantStatus st sessionId p1 "connected" ⟨some b1, none, none⟩ t1).1
        sessionId p2 "connected" ⟨some b2, none, none⟩ t2).1 =
      (updateParticipantStatus
        (updateParticipantStatus st sessionId p2 "connected" ⟨some b2, none, none⟩ t2).1
        sessionId p1 "connected" ⟨some b1, none, none⟩ t1).1 ∧
    (∀ q ∈ getParticipants
        (updateParticipantStatus
          (updateParticipantStatus st sessionId p1 "connected" ⟨some b1, none, none⟩ t1).1
          sessionId p2 "connected" ⟨some b2, none, none⟩ t2).1 sessionId,
      (q.id = p1 → q.isMuted = b1) ∧ (q.id = p2 → q.isMuted = b2)) ∧
    (getParticipants
        (updateParticipantStatus
          (updateParticipantStatus st sessionId p1 "connected" ⟨some b1, none, none⟩ t1).1
          sessionId p2 "connected" ⟨some b2, none, none⟩ t2).1 sessionId).map
        (fun q => q.id) =
      (getParticipants st sessionId).map (fun q => q.id) := by
  have hr12 : getParticipants
      (updateParticipantStatus
        (updateParticipantStatus st sessionId p1 "connected" ⟨some b1, none, none⟩ t1).1
        sessionId p2 "connected" ⟨some b2, none, none⟩ t2).1 sessionId =
      ((getParticipants st sessionId).map (muteToggleFn p1 b1 t1)).map
        (muteToggleFn p2 b2 t2) := by
    rw [getParticipants_updateParticipantStatus_self,
      getParticipants_updateParticipantStatus_self]
    rfl
  have hr21 : getParticipants
      (updateParticipantStatus
        (updateParticipantStatus st sessionId p2 "connected" ⟨some b2, none, none⟩ t2).1
        sessionId p1 "connected" ⟨some b1, none, none⟩ t1).1 sessionId =
      ((getParticipants st sessionId).map (muteToggleFn p2 b2 t2)).map
        (muteToggleFn p1 b1 t1) := by
    rw [getParticipants_updateParticipantStatus_self,
      getParticipants_updateParticipantStatus_self]
    rfl
  have hmapeq : ((getParticipants st sessionId).map (muteToggleFn p1 b1 t1)).map
      (muteToggleFn p2 b2 t2) =
      ((getParticipants st sessionId).map (muteToggleFn p2 b2 t2)).map
        (muteToggleFn p1 b1 t1) := by
    rw [List.map_map, List.map_map]
    exact List.map_congr_left (fun p _ => muteToggleFn_comm p1 p2 b1 b2 t1 t2 hne p)
  refine ⟨?_, ?_, ?_⟩
  · show cacheSet
        (updateParticipantStatus st sessionId p1 "connected" ⟨some b1, none, none⟩ t1).1
        (.participants sessionId) (.plist _) 7200 = cacheSet
        (updateParticipantStatus st sessionId p2 "connected" ⟨some b2, none, none⟩ t2).1
        (.participants sessionId) (.plist _) 7200
    show cacheSet (cacheSet st (.participants sessionId) (.plist _) 7200)
        (.participants sessionId) (.plist _) 7200 = cacheSet
        (cacheSet st (.participants sessionId) (.plist _) 7200)
        (.participants sessionId) (.plist _) 7200
    rw [cacheSet_cacheSet_same, cacheSet_cacheSet_same]
    have h12 : (getParticipants
        (updateParticipantStatus st sessionId p1 "connected" ⟨some b1, none, none⟩ t1).1
        sessionId).map (fun p =>
          if p.id = p2 then
            { applyMeta ⟨some b2, none, none⟩ { p with status := "connected" }
              with lastSeen := t2 }
          else p) =
        ((getParticipants st sessionId).map (muteToggleFn p1 b1 t1)).map
          (muteToggleFn p2 b2 t2) := by
      rw [getParticipants_updateParticipantStatus_self]; rfl
    have h21 : (getParticipants
        (updateParticipantStatus st sessionId p2 "connected" ⟨some b2, none, none⟩ t2).1
        sessionId).map (fun p =>
          if p.id = p1 then
            { applyMeta ⟨some b1, none, none⟩ { p with status := "connected" }
              with lastSeen := t1 }
          else p) =
        ((getParticipants st sessionId).map (muteToggleFn p2 b2 t2)).map
          (muteToggleFn p1 b1 t1) := by
      rw [getParticipants_updateParticipantStatus_self]; rfl
    exact congrArg (fun l => cacheSet st (.participants sessionId) (.plist l) 7200)
      (h12.trans (hmapeq.trans h21.symm))
  · intro q hq
    rw [hr12] at hq
    rw [List.map_map] at hq
    obtain ⟨p, _, hp⟩ := List.mem_map.mp hq
    subst hp
    have h12 : ¬ p1 = p2 := hne
    have h21 : ¬ p2 = p1 := fun hc => hne hc.symm
    by_cases h1 : p.id = p1
    · have h2 : ¬ p.id = p2 := fun hc => hne (h1 ▸ hc)
      constructor
      · intro _
        simp [muteToggleFn, h1, h2, applyMeta, ovr, h12, h21]
      · intro hcontra
        rw [Function.comp_apply, muteToggleFn_id, muteToggleFn_id] at hcontra
        exact absurd hcontra h2
    · by_cases h2 : p.id = p2
      · constructor
        · intro hcontra
          rw [Function.comp_apply, muteToggleFn_id, muteToggleFn_id] at hcontra
          exact absurd hcontra h1
        · intro _
          simp [muteToggleFn, h1, h2, applyMeta, ovr, h12, h21]
      · constructor
        · intro hcontra
          rw [Function.comp_apply, muteToggleFn_id, muteToggleFn_id] at hcontra
          exact absurd hcontra h1
        · intro hcontra
          rw [Function.comp_apply, muteToggleFn_id, muteToggleFn_id] at hcontra
          exact absurd hcontra h2
  · rw [hr12, List.map_map, List.map_map]
    exact List.map_congr_left (fun p _ => by
      rw [Function.comp_apply, Function.comp_apply, muteToggleFn_id, muteToggleFn_id])

/-- Witness for `updateParticipantStatus_toggles_commute` at a concrete
two-participant roster. -/
theorem updateParticipantStatus_toggles_commute_witness :
    (updateParticipantStatus
        (updateParticipantStatus
          (cacheSet emptyStore (.participants "w9")
            (.plist [⟨"a", "A", "sA", false, true, false, 1, "participant", "connected", 0, 0⟩,
                     ⟨"b", "B", "sB", false, false, false, 2, "participant", "connected", 0, 0⟩])
            7200)
          "w9" "a" "connected" ⟨some false, none, none⟩ 5).1
        "w9" "b" "connected" ⟨some true, none, none⟩ 6).1 =
      (updateParticipantStatus
        (updateParticipantStatus
          (cacheSet emptyStore (.participants "w9")
            (.plist [⟨"a", "A", "sA", false, true, false, 1, "participant", "connected", 0, 0⟩,
                     ⟨"b", "B", "sB", false, false, false, 2, "participant", "connected", 0, 0⟩])
            7200)
          "w9" "b" "connected" ⟨some true, none, none⟩ 6).1
        "w9" "a" "connected" ⟨some false, none, none⟩ 5).1 ∧
    (∀ q ∈ getParticipants
        (updateParticipantStatus
          (updateParticipantStatus
            (cacheSet emptyStore (.participants "w9")
              (.plist [⟨"a", "A", "sA", false, true, false, 1, "participant", "connected", 0, 0⟩,
                       ⟨"b", "B", "sB", false, false, false, 2, "participant", "connected", 0, 0⟩])
              7200)
            "w9" "a" "connected" ⟨some false, none, none⟩ 5).1
          "w9" "b" "connected" ⟨some true, none, none⟩ 6).1 "w9",
      (q.id = "a" → q.isMuted = false) ∧ (q.id = "b" → q.isMuted = true)) ∧
    (getParticipants
        (updateParticipantStatus
          (updateParticipantStatus
            (cacheSet emptyStore (.participants "w9")
              (.plist [⟨"a", "A", "sA", false, true, false, 1, "participant", "connected", 0, 0⟩,
                       ⟨"b", "B", "sB", false, false, false, 2, "participant", "connected", 0, 0⟩])
              7200)
            "w9" "a" "connected" ⟨some false, none, none⟩ 5).1
          "w9" "b" "connected" ⟨some true, none, none⟩ 6).1 "w9").map (fun q => q.id) =
      (getParticipants
        (cacheSet emptyStore (.participants "w9")
          (.plist [⟨"a", "A", "sA", false, true, false, 1, "participant", "connected", 0, 0⟩,
                   ⟨"b", "B", "sB", false, false, false, 2, "participant", "connected", 0, 0⟩])
          7200) "w9").map (fun q => q.id) :=
  updateParticipantStatus_toggles_commute
    (cacheSet emptyStore (.participants "w9")
      (.plist [⟨"a", "A", "sA", false, true, false, 1, "participant", "connected", 0, 0⟩,
               ⟨"b", "B", "sB", false, false, false, 2, "participant", "connected", 0, 0⟩])
      7200)
    "w9" "a" "b" false true 5 6 (by decide)

/-! ### C1 -/

/-- Roster for the force-mute / kick scenarios: an issuer with plain
participant role and a target, both connected and unmuted target. -/
def rosterC1 : List Participant :=
  [⟨"u_part", "Issuer", "sockA", false, false, false, 1, "participant", "connected", 0, 0⟩,
   ⟨"p42", "Target", "sockB", false, false, false, 2, "participant", "connected", 0, 0⟩]

/-- Gateway state for the force-mute counterexample: both sockets live
in the audio room, roster as above. -/
def gsC1 : GatewayState :=
  ⟨[⟨"sockA", "u_part", "user", false, ["audio_room_s1"]⟩,
    ⟨"sockB", "p42", "user", false, ["audio_room_s1"]⟩],
   cacheSet emptyStore (.participants "s1") (.plist rosterC1) 7200⟩

/-- C1 counterexample: a force-mute issued by a connection whose roster
role is "participant" (and whose socket role is not host/moderator) is
NOT rejected: the handler emits the directed `force_muted` notice to the
target and the room notice exactly as it would for a host. -/
theorem muteParticipant_unauthorized_applied_counterexample :
    (∃ q ∈ getParticipants gsC1.store "s1", q.id = "u_part" ∧ q.role = "participant") ∧
    ("user" : String) ≠ "host" ∧ ("user" : String) ≠ "moderator" ∧
    (muteParticipant gsC1 ⟨"sockA", "u_part", "user", false, ["audio_room_s1"]⟩
        "s1" "p42" 7).2 =
      [.forceMuted "sockB" "s1" "u_part" 7,
       .participantMuted "audio_room_s1" "p42" "u_part" 7] := by
  refine ⟨by decide, by decide, by decide, rfl⟩

/-- C1 amended: the `mute_participant` handler performs no authorization
check at all. For every issuer — privileged or not — it leaves the
gateway state (sockets and store, hence every roster muted flag)
unchanged; when the target has a live connection it emits the directed
notice and the room notice, and when it has none it emits nothing. -/
theorem muteParticipant_no_authorization (gs : GatewayState) (issuer : Socket)
    (sessionId participantId : String) (now : Nat) :
    (muteParticipant gs issuer sessionId participantId now).1 = gs ∧
    (∀ target, gs.sockets.find? (fun s => s.userId == participantId) = some target →
      (muteParticipant gs issuer sessionId participantId now).2 =
        [.forceMuted target.sid sessionId issuer.userId now,
         .participantMuted ("audio_room_" ++ sessionId) participantId issuer.userId now]) ∧
    (gs.sockets.find? (fun s => s.userId == participantId) = none →
      (muteParticipant gs issuer sessionId participantId now).2 = []) := by
  cases h : gs.sockets.find? (fun s => s.userId == participantId) with
  | some target =>
    refine ⟨by simp [muteParticipant, h], ?_, ?_⟩
    · intro t ht
      injection ht with ht
      subst ht
      simp [muteParticipant, h]
    · intro hn
      exact absurd hn (by simp)
  | none =>
    refine ⟨by simp [muteParticipant, h], ?_, ?_⟩
    · intro t ht
      exact absurd ht (by simp)
    · intro _
      simp [muteParticipant, h]

/-- Witness for `muteParticipant_no_authorization` at the concrete
participant-role issuer. -/
theorem muteParticipant_no_authorization_witness :
    (muteParticipant gsC1 ⟨"sockA", "u_part", "user", false, ["audio_room_s1"]⟩
        "s1" "p42" 7).1 = gsC1 ∧
    (∀ target, gsC1.sockets.find? (fun s => s.userId == "p42") = some target →
      (muteParticipant gsC1 ⟨"sockA", "u_part", "user", false, ["audio_room_s1"]⟩
          "s1" "p42" 7).2 =
        [.forceMuted target.sid "s1" "u_part" 7,
         .participantMuted ("audio_room_" ++ "s1") "p42" "u_part" 7]) ∧
    (gsC1.sockets.find? (fun s => s.userId == "p42") = none →
      (muteParticipant gsC1 ⟨"sockA", "u_part", "user", false, ["audio_room_s1"]⟩
          "s1" "p42" 7).2 = []) :=
  muteParticipant_no_authorization gsC1
    ⟨"sockA", "u_part", "user", false, ["audio_room_s1"]⟩ "s1" "p42" 7

/-! ### C2 -/

/-- Roster for the kick counterexample: the session owner (roster role
"host") and the target participant. -/
def rosterC2 : List Participant :=
  [⟨"owner", "Host", "sockH", false, false, false, 1, "host", "connected", 0, 0⟩,
   ⟨"p42", "Target", "sockB", false, false, false, 2, "participant", "connected", 0, 0⟩]

/-- Gateway state for the kick counterexample. -/
def gsC2 : GatewayState :=
  ⟨[⟨"sockH", "owner", "host", false, ["audio_room_s1"]⟩,
    ⟨"sockB", "p42", "user", false, ["audio_room_s1"]⟩],
   cacheSet emptyStore (.participants "s1") (.plist rosterC2) 7200⟩

/-- C2 counterexample: a kick issued by the session's valid host — the
issuer passes the host-authorization check as the recorded owner and
holds roster role "host" — does NOT remove the target from the stored
roster: after the handler runs, "p42" is still in the roster. -/
theorem kickParticipant_roster_unchanged_counterexample :
    joinSanctuaryHostAuth ⟨[⟨"s1", "HT1", "owner"⟩], []⟩ 0 "s1" none ⟨"owner", false⟩ =
      true ∧
    (∃ q ∈ getParticipants gsC2.store "s1", q.id = "owner" ∧ q.role = "host") ∧
    (∃ q ∈ getParticipants gsC2.store "s1", q.id = "p42") ∧
    (∃ q ∈ getParticipants
        (kickParticipant gsC2 ⟨"sockH", "owner", "host", false, ["audio_room_s1"]⟩
          "s1" "p42" 7).1.store "s1", q.id = "p42") := by
  refine ⟨by decide, by decide, by decide, by decide⟩

/-- C2 amended: the `kick_participant` handler (which performs no
authority check — any issuer is treated alike) never touches the store,
so the target stays in the session's stored roster; when the target has
a live connection it revokes the target's audio-room subscription,
after which the target's connection is not among the room's broadcast
recipients, and it emits the directed notice and the room notice. -/
theorem kickParticipant_revokes_room_not_roster (gs : GatewayState) (issuer : Socket)
    (sessionId participantId : String) (now : Nat) :
    (kickParticipant gs issuer sessionId participantId now).1.store = gs.store ∧
    (∀ target, gs.sockets.find? (fun s => s.userId == participantId) = some target →
      (∀ s ∈ (kickParticipant gs issuer sessionId participantId now).1.sockets,
        s.sid = target.sid → ("audio_room_" ++ sessionId) ∉ s.rooms) ∧
      (∀ s ∈ roomRecipients (kickParticipant gs issuer sessionId participantId now).1
          ("audio_room_" ++ sessionId), s.sid ≠ target.sid) ∧
      (kickParticipant gs issuer sessionId participantId now).2 =
        [.kickedFromRoom target.sid sessionId issuer.userId now,
         .participantKicked ("audio_room_" ++ sessionId) participantId issuer.userId now]) := by
  cases h : gs.sockets.find? (fun s => s.userId == participantId) with
  | some target =>
    have hrooms : ∀ s ∈ (kickParticipant gs issuer sessionId participantId now).1.sockets,
        s.sid = target.sid → ("audio_room_" ++ sessionId) ∉ s.rooms := by
      intro s hs hsid
      have hs2 : s ∈ gs.sockets.map (fun s0 =>
          if s0.sid = target.sid then
            { s0 with rooms := s0.rooms.filter (fun r => r ≠ ("audio_room_" ++ sessionId)) }
          else s0) := by
        simpa [kickParticipant, h] using hs
      obtain ⟨s0, _, hmap⟩ := List.mem_map.mp hs2
      by_cases h0 : s0.sid = target.sid
      · subst hmap
        simp only [if_pos h0]
        intro hmem
        rw [List.mem_filter] at hmem
        simp at hmem
      · subst hmap
        rw [if_neg h0] at hsid ⊢
        exact absurd hsid h0
    refine ⟨by simp [kickParticipant, h], ?_⟩
    intro t ht
    injection ht with ht
    subst ht
    refine ⟨hrooms, ?_, by simp [kickParticipant, h]⟩
    intro s hs hsid
    have hmem := List.mem_filter.mp hs
    have hnotin := hrooms s hmem.1 hsid
    have : ("audio_room_" ++ sessionId) ∈ s.rooms := by
      have := hmem.2
      simpa using this
    exact hnotin this
  | none =>
    refine ⟨by simp [kickParticipant, h], ?_⟩
    intro t ht
    exact absurd ht (by simp)

/-- Witness for `kickParticipant_revokes_room_not_roster` at the
concrete host-issued kick. -/
theorem kickParticipant_revokes_room_not_roster_witness :
    (kickParticipant gsC2 ⟨"sockH", "owner", "host", false, ["audio_room_s1"]⟩
        "s1" "p42" 7).1.store = gsC2.store ∧
    (∀ target, gsC2.sockets.find? (fun s => s.userId == "p42") = some target →
      (∀ s ∈ (kickParticipant gsC2 ⟨"sockH", "owner", "host", false, ["audio_room_s1"]⟩
          "s1" "p42" 7).1.sockets,
        s.sid = target.sid → ("audio_room_" ++ "s1") ∉ s.rooms) ∧
      (∀ s ∈ roomRecipients
          (kickParticipant gsC2 ⟨"sockH", "owner", "host", false, ["audio_room_s1"]⟩
            "s1" "p42" 7).1 ("audio_room_" ++ "s1"), s.sid ≠ target.sid) ∧
      (kickParticipant gsC2 ⟨"sockH", "owner", "host", false, ["audio_room_s1"]⟩
          "s1" "p42" 7).2 =
        [.kickedFromRoom target.sid "s1" "owner" 7,
         .participantKicked ("audio_room_" ++ "s1") "p42" "owner" 7]) :=
  kickParticipant_revokes_room_not_roster gsC2
    ⟨"sockH", "owner", "host", false, ["audio_room_s1"]⟩ "s1" "p42" 7

/-! ### C3 -/

/-- C3 counterexample: the database holds one session whose own record
stores hostToken "T" (owner "owner") and NO grant records at all — so
the spec's `tokenGrantValid` is false and an anonymous connection is not
the owner — yet the handler authorizes an anonymous connection
presenting "T", because its first query matches the session's stored
token with no activity or expiry condition. -/
theorem joinSanctuaryHostAuth_spec_mismatch_counterexample :
    joinSanctuaryHostAuth ⟨[⟨"s1", "T", "owner"⟩], []⟩ 0 "s1" (some "T")
        ⟨"anon1", true⟩ = true ∧
    isHostSpecFormula ⟨[⟨"s1", "T", "owner"⟩], []⟩ 0 "s1" (some "T")
        ⟨"anon1", true⟩ = false := by
  refine ⟨rfl, rfl⟩

lemma find?_owner_none_of_id_none (l : List SanctuarySessionRec) (sid u : String)
    (h : l.find? (fun s => s.id == sid) = none) :
    l.find? (fun s => s.id == sid && s.hostId == u) = none := by
  rw [List.find?_eq_none] at h ⊢
  intro x hx
  have hid := h x hx
  simp only [Bool.and_eq_true, not_and]
  intro h1
  exact absurd h1 hid

/-- C3 amended: the handler's host-authorization check succeeds exactly
when (a) the presented token equals the hostToken stored on the session
record itself — with no activity or expiry condition — or (b) the token
matches an active, unexpired HostSession grant for that session AND a
session record with that id exists, or (c) the connection is not
anonymous and a session record with that id lists its identity as the
owner. Clause (a) goes beyond the spec's `tokenGrantValid OR owner`
formula, which is therefore not equivalent to the code. -/
theorem joinSanctuaryHostAuth_characterization (db : AuthDb) (now : Nat)
    (sanctuaryId : String) (hostToken : Option String) (conn : Conn) :
    joinSanctuaryHostAuth db now sanctuaryId hostToken conn =
      (directTokenMatch db sanctuaryId hostToken ||
       (tokenGrantValid db now sanctuaryId hostToken && sessionExists db sanctuaryId) ||
       (!conn.isAnonymous && ownerMatch db sanctuaryId conn)) := by
  cases hostToken with
  | none =>
    by_cases hanon : conn.isAnonymous
    · simp [joinSanctuaryHostAuth, directTokenMatch, tokenGrantValid, hanon]
    · cases hown : db.sanctuarySessions.find?
          (fun s => s.id == sanctuaryId && s.hostId == conn.userId) with
      | none =>
        simp [joinSanctuaryHostAuth, directTokenMatch, tokenGrantValid, ownerMatch,
          hanon, hown]
      | some s =>
        simp [joinSanctuaryHostAuth, directTokenMatch, tokenGrantValid, ownerMatch,
          hanon, hown]
  | some t =>
    cases hdir : db.sanctuarySessions.find?
        (fun s => s.id == sanctuaryId && s.hostToken == t) with
    | some s =>
      simp [joinSanctuaryHostAuth, directTokenMatch, hdir]
    | none =>
      cases hgrant : db.hostSessions.find? (fun h2 =>
          h2.sanctuaryId == sanctuaryId && h2.hostToken == t &&
          h2.isActive && decide (now < h2.expiresAt)) with
      | some hrec =>
        cases hsess : db.sanctuarySessions.find? (fun s => s.id == sanctuaryId) with
        | some s =>
          simp [joinSanctuaryHostAuth, directTokenMatch, tokenGrantValid, sessionExists,
            hdir, hgrant, hsess]
        | none =>
          have hownnone := find?_owner_none_of_id_none db.sanctuarySessions
            sanctuaryId conn.userId hsess
          simp [joinSanctuaryHostAuth, directTokenMatch, tokenGrantValid, sessionExists,
            ownerMatch, hdir, hgrant, hsess, hownnone]
      | none =>
        by_cases hanon : conn.isAnonymous
        · simp [joinSanctuaryHostAuth, directTokenMatch, tokenGrantValid, hanon,
            hdir, hgrant]
        · cases hown : db.sanctuarySessions.find?
              (fun s => s.id == sanctuaryId && s.hostId == conn.userId) with
          | none =>
            simp [joinSanctuaryHostAuth, directTokenMatch, tokenGrantValid, ownerMatch,
              hanon, hdir, hgrant, hown]
          | some s =>
            simp [joinSanctuaryHostAuth, directTokenMatch, tokenGrantValid, ownerMatch,
              hanon, hdir, hgrant, hown]

end Veilo
